import Mathlib

/-!
Formal model of the Solana Ecosystem MCP server (src/main.py).

The program is a flat list of nine MCP tools.  Each tool body builds one
HTTP GET request (URL string, optional headers, optional query params),
issues it through an httpx AsyncClient, calls raise_for_status (which in
httpx raises HTTPStatusError exactly when the status is not 2xx), and
returns the JSON-decoded body unchanged.

The embedding below mirrors this structure:
  - Json models decoded JSON bodies (numbers as integers, which suffices
    for every claim considered here);
  - PyValue models the Python values appearing in a query-params dict;
  - HttpRequest / HttpResponse model the outbound request and the
    upstream response;
  - HttpM is a small effect tree for tool bodies: issue a GET and
    continue with the response, return a value, or raise an error;
  - HttpM.run executes a tool body against a transport oracle,
    collecting the requests issued in order;
  - the process environment is a map from variable names to optional
    string values, passed to each tool at invocation time, exactly as
    os.getenv reads it inside each tool body.
-/

/-- Decoded JSON values.  Python floats do not occur in any claim, so
numbers are modelled as integers. -/
inductive Json where
  | null : Json
  | bool : Bool → Json
  | num : Int → Json
  | str : String → Json
  | arr : List Json → Json
  | obj : List (String × Json) → Json

/-- Python values that can appear in an httpx query-params dict built by
pydantic model_dump: strings, ints, bools and None. -/
inductive PyValue where
  | vstr : String → PyValue
  | vint : Int → PyValue
  | vbool : Bool → PyValue
  | vnone : PyValue

/-- An outbound HTTP GET request as the source code constructs it: the
URL string (query string already interpolated where the source uses an
f-string), the headers dict passed to client.get, and the params dict
passed to client.get (used only by jupiter_quote). -/
structure HttpRequest where
  url : String
  headers : List (String × String)
  params : List (String × PyValue)

/-- An upstream HTTP response: a status code and the decoded JSON body. -/
structure HttpResponse where
  status : Nat
  body : Json

/-- httpx Response.is_success: status in the 2xx range. -/
def isSuccess (status : Nat) : Bool := 200 ≤ status && status < 300

/-- The HTTP client's own error for a non-success status
(httpx.HTTPStatusError), carrying the offending status code.  The
program defines no error type of its own. -/
inductive HttpError where
  | statusError : Nat → HttpError

/-- Effect tree for a tool body: return a value, issue a GET and continue
with the response, or raise an error. -/
inductive HttpM (α : Type) where
  | ret : α → HttpM α
  | get : HttpRequest → (HttpResponse → HttpM α) → HttpM α
  | raise : HttpError → HttpM α

/-- Run a tool body against a transport oracle, returning the list of
requests issued (in order) and the outcome. -/
def HttpM.run {α : Type} (t : HttpRequest → HttpResponse) :
    HttpM α → List HttpRequest × Except HttpError α
  | .ret a => ([], Except.ok a)
  | .raise e => ([], Except.error e)
  | .get req k =>
      let rest := HttpM.run t (k (t req))
      (req :: rest.1, rest.2)

/-- The process environment: a map from variable names to the variable's
value when set. -/
def Env : Type := String → Option String

/-- os.getenv with a default value. -/
def getenv (env : Env) (key dflt : String) : String := (env key).getD dflt

/-- The shared tail of every tool body:
response = await client.get(request); response.raise_for_status();
return response.json().  httpx raise_for_status raises HTTPStatusError
exactly when the status is not 2xx. -/
def getJson (req : HttpRequest) : HttpM Json :=
  HttpM.get req (fun response =>
    if isSuccess response.status then HttpM.ret response.body
    else HttpM.raise (HttpError.statusError response.status))

/-- Header dict built by each Solscan tool:
headers starts as the accept header; if the SOLSCAN_API_KEY value read at
this invocation is truthy (non-empty), the token header is added. -/
def solscanHeaders (env : Env) : List (String × String) :=
  let api_key := getenv env "SOLSCAN_API_KEY" ""
  let headers := [("accept", "application/json")]
  if api_key ≠ "" then headers ++ [("token", api_key)] else headers

/-- Request built by solscan_account_info. -/
def solscan_account_info_request (env : Env) (address : String) : HttpRequest :=
  { url := "https://public-api.solscan.io/account/" ++ address
  , headers := solscanHeaders env
  , params := [] }

/-- solscan_account_info tool body. -/
def solscan_account_info (env : Env) (address : String) : HttpM Json :=
  getJson (solscan_account_info_request env address)

/-- Request built by solscan_token_info. -/
def solscan_token_info_request (env : Env) (address : String) : HttpRequest :=
  { url := "https://public-api.solscan.io/token/meta?tokenAddress=" ++ address
  , headers := solscanHeaders env
  , params := [] }

/-- solscan_token_info tool body. -/
def solscan_token_info (env : Env) (address : String) : HttpM Json :=
  getJson (solscan_token_info_request env address)

/-- Request built by solscan_token_holders (limit and offset are Python
ints, interpolated into the query string). -/
def solscan_token_holders_request (env : Env) (address : String)
    (limit offset : Int) : HttpRequest :=
  { url := "https://public-api.solscan.io/token/holders?tokenAddress=" ++ address
      ++ "&limit=" ++ toString limit ++ "&offset=" ++ toString offset
  , headers := solscanHeaders env
  , params := [] }

/-- solscan_token_holders tool body. -/
def solscan_token_holders (env : Env) (address : String)
    (limit offset : Int) : HttpM Json :=
  getJson (solscan_token_holders_request env address limit offset)

/-- Request built by solscan_transaction. -/
def solscan_transaction_request (env : Env) (signature : String) : HttpRequest :=
  { url := "https://public-api.solscan.io/transaction/" ++ signature
  , headers := solscanHeaders env
  , params := [] }

/-- solscan_transaction tool body. -/
def solscan_transaction (env : Env) (signature : String) : HttpM Json :=
  getJson (solscan_transaction_request env signature)

/-- Request built by jupiter_tokens: no headers dict and no params dict
are passed to client.get. -/
def jupiter_tokens_request (env : Env) : HttpRequest :=
  { url := "https://token.jup.ag/all", headers := [], params := [] }

/-- jupiter_tokens tool body. -/
def jupiter_tokens (env : Env) : HttpM Json :=
  getJson (jupiter_tokens_request env)

/-- Python default for the vsToken parameter of jupiter_price. -/
def jupiter_price_default_vsToken : String := "USDC"

/-- Request built by jupiter_price: ids joined by commas into the query
string. -/
def jupiter_price_request (env : Env) (ids : List String)
    (vsToken : String) : HttpRequest :=
  { url := "https://price.jup.ag/v4/price?ids=" ++ String.intercalate "," ids
      ++ "&vsToken=" ++ vsToken
  , headers := [], params := [] }

/-- jupiter_price tool body. -/
def jupiter_price (env : Env) (ids : List String) (vsToken : String) : HttpM Json :=
  getJson (jupiter_price_request env ids vsToken)

/-- The JupiterQuoteRequest pydantic model.  The last four fields carry
the model's declared defaults. -/
structure JupiterQuoteRequest where
  inputMint : String
  outputMint : String
  amount : String
  slippageBps : Int := 50
  platformFeeBps : Option Int := none
  onlyDirectRoutes : Option Bool := some false
  asLegacyTransaction : Option Bool := some false

/-- pydantic model_dump on a JupiterQuoteRequest: a dict with one entry
per declared field, in declaration order; a None field value stays None. -/
def JupiterQuoteRequest.model_dump (q : JupiterQuoteRequest) :
    List (String × PyValue) :=
  [ ("inputMint", PyValue.vstr q.inputMint)
  , ("outputMint", PyValue.vstr q.outputMint)
  , ("amount", PyValue.vstr q.amount)
  , ("slippageBps", PyValue.vint q.slippageBps)
  , ("platformFeeBps", q.platformFeeBps.elim PyValue.vnone PyValue.vint)
  , ("onlyDirectRoutes", q.onlyDirectRoutes.elim PyValue.vnone PyValue.vbool)
  , ("asLegacyTransaction", q.asLegacyTransaction.elim PyValue.vnone PyValue.vbool) ]

/-- Request built by jupiter_quote: plain URL, params dict from
model_dump, no headers. -/
def jupiter_quote_request (env : Env) (q : JupiterQuoteRequest) : HttpRequest :=
  { url := "https://quote-api.jup.ag/v6/quote"
  , headers := []
  , params := q.model_dump }

/-- jupiter_quote tool body. -/
def jupiter_quote (env : Env) (q : JupiterQuoteRequest) : HttpM Json :=
  getJson (jupiter_quote_request env q)

/-- Request built by dexscreener_token. -/
def dexscreener_token_request (env : Env) (tokenAddress : String) : HttpRequest :=
  { url := "https://api.dexscreener.com/latest/dex/tokens/" ++ tokenAddress
  , headers := [], params := [] }

/-- dexscreener_token tool body. -/
def dexscreener_token (env : Env) (tokenAddress : String) : HttpM Json :=
  getJson (dexscreener_token_request env tokenAddress)

/-- Request built by dexscreener_pair. -/
def dexscreener_pair_request (env : Env) (pairAddress : String) : HttpRequest :=
  { url := "https://api.dexscreener.com/latest/dex/pairs/solana/" ++ pairAddress
  , headers := [], params := [] }

/-- dexscreener_pair tool body. -/
def dexscreener_pair (env : Env) (pairAddress : String) : HttpM Json :=
  getJson (dexscreener_pair_request env pairAddress)

/-- Request built by dexscreener_search. -/
def dexscreener_search_request (env : Env) (query : String) : HttpRequest :=
  { url := "https://api.dexscreener.com/latest/dex/search?q=" ++ query
  , headers := [], params := [] }

/-- dexscreener_search tool body. -/
def dexscreener_search (env : Env) (query : String) : HttpM Json :=
  getJson (dexscreener_search_request env query)

/-- One invocation of one of the nine tools, with its arguments. -/
inductive ToolCall where
  | solscanAccountInfo (address : String)
  | solscanTokenInfo (address : String)
  | solscanTokenHolders (address : String) (limit offset : Int)
  | solscanTransaction (signature : String)
  | jupiterTokens
  | jupiterPrice (ids : List String) (vsToken : String)
  | jupiterQuote (q : JupiterQuoteRequest)
  | dexscreenerToken (tokenAddress : String)
  | dexscreenerPair (pairAddress : String)
  | dexscreenerSearch (query : String)

/-- Dispatch an invocation to the corresponding tool body, under the
process environment at the time of the call. -/
def ToolCall.invoke (env : Env) : ToolCall → HttpM Json
  | .solscanAccountInfo address => solscan_account_info env address
  | .solscanTokenInfo address => solscan_token_info env address
  | .solscanTokenHolders address limit offset =>
      solscan_token_holders env address limit offset
  | .solscanTransaction signature => solscan_transaction env signature
  | .jupiterTokens => jupiter_tokens env
  | .jupiterPrice ids vsToken => jupiter_price env ids vsToken
  | .jupiterQuote q => jupiter_quote env q
  | .dexscreenerToken tokenAddress => dexscreener_token env tokenAddress
  | .dexscreenerPair pairAddress => dexscreener_pair env pairAddress
  | .dexscreenerSearch query => dexscreener_search env query

/-- The request an invocation builds, under the environment at the time
of the call. -/
def ToolCall.request (env : Env) : ToolCall → HttpRequest
  | .solscanAccountInfo address => solscan_account_info_request env address
  | .solscanTokenInfo address => solscan_token_info_request env address
  | .solscanTokenHolders address limit offset =>
      solscan_token_holders_request env address limit offset
  | .solscanTransaction signature => solscan_transaction_request env signature
  | .jupiterTokens => jupiter_tokens_request env
  | .jupiterPrice ids vsToken => jupiter_price_request env ids vsToken
  | .jupiterQuote q => jupiter_quote_request env q
  | .dexscreenerToken tokenAddress => dexscreener_token_request env tokenAddress
  | .dexscreenerPair pairAddress => dexscreener_pair_request env pairAddress
  | .dexscreenerSearch query => dexscreener_search_request env query

/-- Whether an invocation targets one of the four Solscan tools. -/
def ToolCall.is_solscan : ToolCall → Bool
  | .solscanAccountInfo _ => true
  | .solscanTokenInfo _ => true
  | .solscanTokenHolders _ _ _ => true
  | .solscanTransaction _ => true
  | _ => false

/-- Whether an invocation targets a Jupiter or DexScreener tool. -/
def ToolCall.is_jupiter_or_dexscreener : ToolCall → Bool
  | .jupiterTokens => true
  | .jupiterPrice _ _ => true
  | .jupiterQuote _ => true
  | .dexscreenerToken _ => true
  | .dexscreenerPair _ => true
  | .dexscreenerSearch _ => true
  | _ => false

/-- Run a sequence of invocations in order, each under the environment
current at its own call time, against one transport oracle; collect all
requests issued and the per-call outcomes. -/
def runCallsE (t : HttpRequest → HttpResponse) :
    List (Env × ToolCall) → List HttpRequest × List (Except HttpError Json)
  | [] => ([], [])
  | ec :: rest =>
      let r := HttpM.run t (ToolCall.invoke ec.1 ec.2)
      let rs := runCallsE t rest
      (r.1 ++ rs.1, r.2 :: rs.2)

/-- Run a sequence of invocations under one fixed environment. -/
def runCalls (env : Env) (t : HttpRequest → HttpResponse)
    (cs : List ToolCall) : List HttpRequest × List (Except HttpError Json) :=
  runCallsE t (cs.map (fun c => (env, c)))

/-- Look up a key in a JSON object (None on non-objects or absent keys). -/
def Json.lookupField : Json → String → Option Json
  | .obj fields, key => lookupPairs fields key
  | _, _ => none
where
  lookupPairs : List (String × Json) → String → Option Json
    | [], _ => none
    | (k, v) :: rest, key => if k = key then some v else lookupPairs rest key

/-- Is this JSON value a string? -/
def Json.isStr : Json → Bool
  | .str _ => true
  | _ => false

/-- Is this JSON value an integer? -/
def Json.isInt : Json → Bool
  | .num _ => true
  | _ => false

/-- Is this JSON value a boolean? -/
def Json.isBool : Json → Bool
  | .bool _ => true
  | _ => false

/-- Is this JSON value an object? -/
def Json.isObj : Json → Bool
  | .obj _ => true
  | _ => false

/-- Is this JSON value an array whose elements all satisfy ty? -/
def Json.isArrOf (ty : Json → Bool) : Json → Bool
  | .arr xs => xs.all ty
  | _ => false

/-- A required pydantic field: present and of the right shape. -/
def reqField (j : Json) (key : String) (ty : Json → Bool) : Bool :=
  match j.lookupField key with
  | some v => ty v
  | none => false

/-- An optional pydantic field (declared Optional with default None):
absent, null, or of the right shape. -/
def optField (j : Json) (key : String) (ty : Json → Bool) : Bool :=
  match j.lookupField key with
  | none => true
  | some Json.null => true
  | some v => ty v

/-- The string values of the SolscanAccountType enum. -/
def SolscanAccountType.values : List String :=
  ["token", "account", "nft", "program"]

/-- Shape check for the SolscanAccountType enum. -/
def SolscanAccountType.matches : Json → Bool
  | .str s => SolscanAccountType.values.contains s
  | _ => false

/-- Shape check for the TokenMetadata pydantic model. -/
def TokenMetadata.matches (j : Json) : Bool :=
  reqField j "symbol" Json.isStr &&
  reqField j "name" Json.isStr &&
  reqField j "decimals" Json.isInt &&
  optField j "logo" Json.isStr &&
  optField j "coingecko_id" Json.isStr

/-- Shape check for the SolscanAccountInfo pydantic model (data is
declared Optional Any, so it is unconstrained). -/
def SolscanAccountInfo.matches (j : Json) : Bool :=
  reqField j "address" Json.isStr &&
  reqField j "type" SolscanAccountType.matches &&
  optField j "owner" Json.isStr &&
  reqField j "executable" Json.isBool &&
  reqField j "lamports" Json.isInt &&
  reqField j "rent_epoch" Json.isInt

/-- Shape check for the JupiterRoute pydantic model. -/
def JupiterRoute.matches (j : Json) : Bool :=
  reqField j "inAmount" Json.isStr &&
  reqField j "outAmount" Json.isStr &&
  reqField j "amount" Json.isStr &&
  reqField j "otherAmountThreshold" Json.isStr &&
  reqField j "swapMode" Json.isStr &&
  reqField j "slippageBps" Json.isInt &&
  reqField j "priceImpactPct" Json.isStr &&
  reqField j "marketInfos" (Json.isArrOf Json.isObj)

/-- Shape check for the JupiterQuoteResponse pydantic model. -/
def JupiterQuoteResponse.matches (j : Json) : Bool :=
  reqField j "inputMint" Json.isStr &&
  reqField j "outputMint" Json.isStr &&
  reqField j "inAmount" Json.isStr &&
  reqField j "outAmount" Json.isStr &&
  reqField j "otherAmountThreshold" Json.isStr &&
  reqField j "swapMode" Json.isStr &&
  reqField j "slippageBps" Json.isInt &&
  reqField j "priceImpactPct" Json.isStr &&
  reqField j "routes" (Json.isArrOf JupiterRoute.matches)

/-- Shape check for the DexScreenerPair pydantic model. -/
def DexScreenerPair.matches (j : Json) : Bool :=
  reqField j "chainId" Json.isStr &&
  reqField j "dexId" Json.isStr &&
  reqField j "url" Json.isStr &&
  reqField j "pairAddress" Json.isStr &&
  reqField j "baseToken" TokenMetadata.matches &&
  reqField j "quoteToken" TokenMetadata.matches &&
  reqField j "priceNative" Json.isStr &&
  optField j "priceUsd" Json.isStr &&
  reqField j "txns" Json.isObj &&
  reqField j "volume" Json.isObj &&
  reqField j "liquidity" Json.isObj

/-- Shape check for the DexScreenerSearchResponse pydantic model. -/
def DexScreenerSearchResponse.matches (j : Json) : Bool :=
  reqField j "pairs" (Json.isArrOf DexScreenerPair.matches)

/-- Every tool body is the shared GET-then-raise-then-decode tail applied
to the request that tool builds. -/
theorem ToolCall.invoke_eq_getJson (env : Env) (c : ToolCall) :
    c.invoke env = getJson (c.request env) := by
  cases c <;> rfl

/-- Running the shared tail issues exactly its one request and returns
the decoded body on 2xx, the client's status error otherwise. -/
theorem getJson_run (t : HttpRequest → HttpResponse) (req : HttpRequest) :
    (getJson req).run t =
      ([req],
       if isSuccess (t req).status then Except.ok (t req).body
       else Except.error (HttpError.statusError (t req).status)) := by
  by_cases h : isSuccess (t req).status
  · simp [getJson, HttpM.run, h]
  · simp [getJson, HttpM.run, h]

/-- Running any tool invocation issues exactly its one request and
either passes the body through or raises the status error. -/
theorem ToolCall.invoke_run (env : Env) (t : HttpRequest → HttpResponse)
    (c : ToolCall) :
    (c.invoke env).run t =
      ([c.request env],
       if isSuccess (t (c.request env)).status then
         Except.ok (t (c.request env)).body
       else Except.error (HttpError.statusError (t (c.request env)).status)) := by
  rw [ToolCall.invoke_eq_getJson]
  exact getJson_run t (c.request env)

/-- The trace of a call sequence is one request per call, each built from
the environment current at that call. -/
theorem runCallsE_fst (t : HttpRequest → HttpResponse) :
    ∀ ecs : List (Env × ToolCall),
      (runCallsE t ecs).1 = ecs.map (fun ec => ec.2.request ec.1)
  | [] => rfl
  | ec :: rest => by
      simp [runCallsE, ToolCall.invoke_run, runCallsE_fst t rest]

/-- Concrete environment with no variables set. -/
def envNone : Env := fun _ => none

/-- Concrete environment with only SOLSCAN_API_KEY set. -/
def envWithKey : Env :=
  fun k => if k = "SOLSCAN_API_KEY" then some "secret-key" else none

/-- Concrete transport always answering 200 with an empty JSON object. -/
def t200 : HttpRequest → HttpResponse :=
  fun _ => { status := 200, body := Json.obj [] }

/-- Concrete transport always answering 200 with a JSON object that
matches none of the declared response models. -/
def tBad : HttpRequest → HttpResponse :=
  fun _ => { status := 200, body := Json.obj [("unexpected", Json.null)] }

/-- C1: for every tool and every input, when the upstream response has a
2xx status, the tool returns exactly the JSON-decoded response body,
unmodified. -/
theorem claim1_success_passthrough (env : Env) (t : HttpRequest → HttpResponse)
    (c : ToolCall) (h : isSuccess (t (c.request env)).status = true) :
    (c.invoke env).run t =
      ([c.request env], Except.ok ((t (c.request env)).body)) := by
  rw [ToolCall.invoke_run, if_pos h]

/-- Witness for C1 at a concrete invocation and transport. -/
theorem claim1_success_passthrough_witness :
    (ToolCall.jupiterTokens.invoke envNone).run t200 =
      ([ToolCall.jupiterTokens.request envNone], Except.ok (Json.obj [])) :=
  claim1_success_passthrough envNone t200 ToolCall.jupiterTokens (by decide)

/-- C2: for every tool and every input, the outcome is the HTTP client's
own status error exactly when the status is not 2xx, and the passed-
through body otherwise; no retry, fallback, or wrapping occurs. -/
theorem claim2_error_iff_non2xx (env : Env) (t : HttpRequest → HttpResponse)
    (c : ToolCall) :
    ((c.invoke env).run t).2 =
      (if isSuccess (t (c.request env)).status then
        Except.ok ((t (c.request env)).body)
       else Except.error (HttpError.statusError ((t (c.request env)).status))) ∧
    ((∃ e, ((c.invoke env).run t).2 = Except.error e) ↔
      isSuccess (t (c.request env)).status = false) := by
  have hrun := ToolCall.invoke_run env t c
  refine ⟨by rw [hrun], ?_⟩
  rw [hrun]
  by_cases hs : isSuccess (t (c.request env)).status
  · simp [hs]
  · simp [hs]

/-- C3: every invocation issues exactly one request, and a sequence of
invocations issues exactly one request per call (no caching: a repeated
call re-issues its request; no retry: the trace has one request whatever
the response status). -/
theorem claim3_single_request_per_call (env : Env)
    (t : HttpRequest → HttpResponse) (c : ToolCall) (cs : List ToolCall) :
    ((c.invoke env).run t).1 = [c.request env] ∧
    (runCalls env t cs).1 = cs.map (fun d => d.request env) := by
  constructor
  · rw [ToolCall.invoke_run]
  · rw [runCalls, runCallsE_fst]
    simp

/-- C8: call sequences decompose pointwise: running any calls before
any others changes neither the requests the later calls issue nor their
outcomes (no shared mutable state between invocations). -/
theorem claim8_calls_independent (t : HttpRequest → HttpResponse)
    (ecs1 ecs2 : List (Env × ToolCall)) :
    runCallsE t (ecs1 ++ ecs2) =
      ((runCallsE t ecs1).1 ++ (runCallsE t ecs2).1,
       (runCallsE t ecs1).2 ++ (runCallsE t ecs2).2) := by
  induction ecs1 with
  | nil => simp [runCallsE]
  | cons ec rest ih => simp [runCallsE, ih]

/-- The Solscan header dict is the accept header, followed by the token
header exactly when the key read at this invocation is non-empty. -/
theorem solscanHeaders_eq (env : Env) :
    solscanHeaders env =
      (if getenv env "SOLSCAN_API_KEY" "" ≠ "" then
        [("accept", "application/json"),
         ("token", getenv env "SOLSCAN_API_KEY" "")]
       else [("accept", "application/json")]) := by
  simp [solscanHeaders]

/-- Every Solscan invocation's request carries the Solscan header dict. -/
theorem solscan_request_headers (env : Env) (c : ToolCall)
    (h : c.is_solscan = true) :
    (c.request env).headers = solscanHeaders env := by
  cases c <;> simp_all [ToolCall.is_solscan, ToolCall.request,
    solscan_account_info_request, solscan_token_info_request,
    solscan_token_holders_request, solscan_transaction_request]

/-- C4: every Solscan invocation sends the accept header, sends a token
header holding the SOLSCAN_API_KEY value exactly when that variable is a
non-empty string, and sends no other headers. -/
theorem claim4_solscan_headers (env : Env) (c : ToolCall)
    (h : c.is_solscan = true) :
    ("accept", "application/json") ∈ (c.request env).headers ∧
    (∀ k : String, ("token", k) ∈ (c.request env).headers ↔
      (getenv env "SOLSCAN_API_KEY" "" ≠ "" ∧
       k = getenv env "SOLSCAN_API_KEY" "")) ∧
    (∀ p ∈ (c.request env).headers,
      p = ("accept", "application/json") ∨
      p = ("token", getenv env "SOLSCAN_API_KEY" "")) := by
  rw [solscan_request_headers env c h, solscanHeaders_eq]
  by_cases hk : getenv env "SOLSCAN_API_KEY" "" = ""
  · simp [hk]
  · simp [hk]

/-- Witness for C4: with the key set, the token header is present. -/
theorem claim4_solscan_headers_witness :
    ("token", "secret-key") ∈
      ((ToolCall.solscanAccountInfo "addr").request envWithKey).headers :=
  ((claim4_solscan_headers envWithKey (ToolCall.solscanAccountInfo "addr")
      rfl).2.1 "secret-key").mpr (by decide)

/-- C5: Jupiter and DexScreener invocations build requests independent
of the environment (in particular of SOLSCAN_API_KEY) and attach no
headers at all. -/
theorem claim5_requests_key_independent (e1 e2 : Env) (c : ToolCall)
    (h : c.is_jupiter_or_dexscreener = true) :
    c.request e1 = c.request e2 ∧ (c.request e1).headers = [] := by
  cases c <;> simp_all [ToolCall.is_jupiter_or_dexscreener, ToolCall.request,
    jupiter_tokens_request, jupiter_price_request, jupiter_quote_request,
    dexscreener_token_request, dexscreener_pair_request,
    dexscreener_search_request]

/-- Witness for C5: two environments differing in SOLSCAN_API_KEY give
the same DexScreener search request. -/
theorem claim5_requests_key_independent_witness :
    (ToolCall.dexscreenerSearch "SOL").request envNone =
      (ToolCall.dexscreenerSearch "SOL").request envWithKey :=
  (claim5_requests_key_independent envNone envWithKey
    (ToolCall.dexscreenerSearch "SOL") rfl).1

/-- C6: jupiter_price builds exactly the ids-joined-by-commas URL, with
vsToken defaulting to USDC, and an empty ids list yields an empty ids
query value. -/
theorem claim6_jupiter_price_url (env : Env) (ids : List String)
    (vsToken : String) :
    ((ToolCall.jupiterPrice ids vsToken).request env).url =
      "https://price.jup.ag/v4/price?ids=" ++ String.intercalate "," ids
        ++ "&vsToken=" ++ vsToken ∧
    ((ToolCall.jupiterPrice ids jupiter_price_default_vsToken).request env).url =
      "https://price.jup.ag/v4/price?ids=" ++ String.intercalate "," ids
        ++ "&vsToken=" ++ "USDC" ∧
    ((ToolCall.jupiterPrice ([] : List String) vsToken).request env).url =
      "https://price.jup.ag/v4/price?ids=" ++ "" ++ "&vsToken=" ++ vsToken ∧
    ((ToolCall.jupiterPrice ids vsToken).request env).headers = [] ∧
    ((ToolCall.jupiterPrice ids vsToken).request env).params = [] :=
  ⟨rfl, rfl, rfl, rfl, rfl⟩

/-- C7: jupiter_quote sends a GET to the fixed quote URL whose params
are exactly the model_dump of the request model: all seven declared
fields in order, a None platformFeeBps included as None, and the
declared defaults filled in when the caller gives only the three
required fields. -/
theorem claim7_jupiter_quote_params (env : Env) (q : JupiterQuoteRequest) :
    ((ToolCall.jupiterQuote q).request env).url =
      "https://quote-api.jup.ag/v6/quote" ∧
    ((ToolCall.jupiterQuote q).request env).params = q.model_dump ∧
    q.model_dump =
      [ ("inputMint", PyValue.vstr q.inputMint)
      , ("outputMint", PyValue.vstr q.outputMint)
      , ("amount", PyValue.vstr q.amount)
      , ("slippageBps", PyValue.vint q.slippageBps)
      , ("platformFeeBps", q.platformFeeBps.elim PyValue.vnone PyValue.vint)
      , ("onlyDirectRoutes", q.onlyDirectRoutes.elim PyValue.vnone PyValue.vbool)
      , ("asLegacyTransaction",
          q.asLegacyTransaction.elim PyValue.vnone PyValue.vbool) ] ∧
    (∀ i o a : String,
      ({ inputMint := i, outputMint := o, amount := a } : JupiterQuoteRequest) =
        { inputMint := i, outputMint := o, amount := a, slippageBps := 50,
          platformFeeBps := none, onlyDirectRoutes := some false,
          asLegacyTransaction := some false }) ∧
    ((ToolCall.jupiterQuote q).request env).headers = [] :=
  ⟨rfl, rfl, rfl, fun _ _ _ => rfl, rfl⟩

/-- C9: no tool validates its response against the declared pydantic
models: a 2xx body that fails the declared shape check is still returned
unchanged, with no validation error. -/
theorem claim9_no_response_validation (env : Env)
    (t : HttpRequest → HttpResponse) :
    (∀ address : String,
      isSuccess (t (solscan_account_info_request env address)).status = true →
      SolscanAccountInfo.matches
        (t (solscan_account_info_request env address)).body = false →
      (solscan_account_info env address).run t =
        ([solscan_account_info_request env address],
         Except.ok ((t (solscan_account_info_request env address)).body))) ∧
    (∀ q : JupiterQuoteRequest,
      isSuccess (t (jupiter_quote_request env q)).status = true →
      JupiterQuoteResponse.matches (t (jupiter_quote_request env q)).body = false →
      (jupiter_quote env q).run t =
        ([jupiter_quote_request env q],
         Except.ok ((t (jupiter_quote_request env q)).body))) ∧
    (∀ query : String,
      isSuccess (t (dexscreener_search_request env query)).status = true →
      DexScreenerSearchResponse.matches
        (t (dexscreener_search_request env query)).body = false →
      (dexscreener_search env query).run t =
        ([dexscreener_search_request env query],
         Except.ok ((t (dexscreener_search_request env query)).body))) := by
  refine ⟨fun address hs _ => ?_, fun q hs _ => ?_, fun query hs _ => ?_⟩
  · unfold solscan_account_info
    rw [getJson_run, if_pos hs]
  · unfold jupiter_quote
    rw [getJson_run, if_pos hs]
  · unfold dexscreener_search
    rw [getJson_run, if_pos hs]

/-- Witness for C9: a body matching no declared model passes through. -/
theorem claim9_no_response_validation_witness :
    (solscan_account_info envNone "addr").run tBad =
      ([solscan_account_info_request envNone "addr"],
       Except.ok (Json.obj [("unexpected", Json.null)])) :=
  (claim9_no_response_validation envNone tBad).1 "addr" (by decide) (by decide)

/-- C10: SOLSCAN_API_KEY is read at every Solscan invocation: in a
two-call sequence the requests are built from each call's own
environment, and the second call's headers are determined by the
environment current at the second call. -/
theorem claim10_env_reread (t : HttpRequest → HttpResponse) (e1 e2 : Env)
    (c : ToolCall) (h : c.is_solscan = true) :
    (runCallsE t [(e1, c), (e2, c)]).1 = [c.request e1, c.request e2] ∧
    (c.request e2).headers =
      (if getenv e2 "SOLSCAN_API_KEY" "" ≠ "" then
        [("accept", "application/json"),
         ("token", getenv e2 "SOLSCAN_API_KEY" "")]
       else [("accept", "application/json")]) ∧
    (c.request e1).headers =
      (if getenv e1 "SOLSCAN_API_KEY" "" ≠ "" then
        [("accept", "application/json"),
         ("token", getenv e1 "SOLSCAN_API_KEY" "")]
       else [("accept", "application/json")]) := by
  refine ⟨?_, ?_, ?_⟩
  · rw [runCallsE_fst]
    rfl
  · rw [solscan_request_headers e2 c h, solscanHeaders_eq]
  · rw [solscan_request_headers e1 c h, solscanHeaders_eq]

/-- Witness for C10: the key is unset at the first call and set at the
second, and the second call's request carries the new token header. -/
theorem claim10_env_reread_witness :
    (runCallsE t200 [(envNone, ToolCall.solscanAccountInfo "addr"),
                     (envWithKey, ToolCall.solscanAccountInfo "addr")]).1 =
      [(ToolCall.solscanAccountInfo "addr").request envNone,
       (ToolCall.solscanAccountInfo "addr").request envWithKey] :=
  (claim10_env_reread t200 envNone envWithKey
    (ToolCall.solscanAccountInfo "addr") rfl).1
